import Mathlib

/-!
Verification of the `ytd` command-line downloader (`src/ytd/main.py`).

The development shallowly embeds the URL classifier, the author
derivation, the log adapter, the exit-code mapping, and a small
heap model of the mutable yt-dlp configuration dictionaries.
Strings are modelled as `List Char`.
-/

namespace Ytd

abbrev Chars := List Char

def toL (s : String) : Chars := s.toList

/-! ## URL parsing (model of `urllib.parse.urlparse` as used here)

`is_youtube_url` and `is_single_video` both normalise the URL with
`ensure_scheme` first, so every parsed URL starts with `http://` or
`https://`.  The model reproduces, for such URLs, CPython's extraction
of `hostname` (netloc after the last `@`, before `:`, lowercased,
bracketed IPv6 handled) and `path` (up to `?`/`#`, with the
`;params` suffix of the last segment split off, as `urlparse` does for
schemes that use parameters).  `urlsplit` first removes tab, CR and LF
characters anywhere in the URL. -/

/-- Model of `urllib.parse.urlsplit` removing unsafe bytes `\t`, `\r`, `\n`. -/
def remove_unsafe_bytes (url : Chars) : Chars :=
  url.filter (fun c => !(c == '\t' || c == '\r' || c == '\n'))

/-- The part of the URL after `http://` or `https://`, when that scheme
prefix is present. -/
def after_scheme (url : Chars) : Option Chars :=
  if (toL "http://").isPrefixOf url then some (url.drop 7)
  else if (toL "https://").isPrefixOf url then some (url.drop 8)
  else none

/-- `netloc`: everything after `scheme://` up to the first `/`, `?` or `#`. -/
def url_netloc (url : Chars) : Chars :=
  match after_scheme (remove_unsafe_bytes url) with
  | some rest => rest.takeWhile (fun c => !(c == '/' || c == '?' || c == '#'))
  | none => []

/-- Raw path: from the end of the netloc up to the first `?` or `#`
(for URLs without the scheme marker, the whole string up to `?`/`#`,
as in `urlsplit`). -/
def url_rawpath (url : Chars) : Chars :=
  match after_scheme (remove_unsafe_bytes url) with
  | some rest =>
      ((rest.dropWhile (fun c => !(c == '/' || c == '?' || c == '#'))).takeWhile
        (fun c => !(c == '?' || c == '#')))
  | none => (remove_unsafe_bytes url).takeWhile (fun c => !(c == '?' || c == '#'))

/-- Model of `urllib.parse._splitparams` as `urlparse` applies it: drop the
`;params` part of the last path segment. -/
def dropParams (p : Chars) : Chars :=
  if p.contains ';' then
    if p.contains '/' then
      ((p.reverse.dropWhile (fun c => !(c == '/'))).reverse) ++
        (((p.reverse.takeWhile (fun c => !(c == '/'))).reverse).takeWhile
          (fun c => !(c == ';')))
    else p.takeWhile (fun c => !(c == ';'))
  else p

/-- `path` as `urlparse` returns it for an `http`/`https` URL. -/
def url_path (url : Chars) : Chars := dropParams (url_rawpath url)

/-- The part of a netloc after its last `@` (CPython `rpartition`-style:
the whole netloc when there is no `@`). -/
def afterLast (c : Char) (s : Chars) : Chars :=
  ((s.reverse).takeWhile (fun x => !(x == c))).reverse

/-- Model of `urlparse(url).hostname`: netloc after the last `@`, then the
bracketed part for IPv6 literals or everything before `:` otherwise,
lowercased.  CPython yields `None` for an empty host, which the program
immediately converts to `''` with `or ''`; the model returns `[]` directly. -/
def url_hostname (url : Chars) : Chars :=
  let netloc := url_netloc url
  let hostinfo := afterLast '@' netloc
  let host :=
    if hostinfo.contains '[' then
      ((hostinfo.dropWhile (fun c => !(c == '['))).drop 1).takeWhile
        (fun c => !(c == ']'))
    else hostinfo.takeWhile (fun c => !(c == ':'))
  host.map Char.toLower

/-! ## URL classifier (`ensure_scheme`, `is_youtube_url`, `is_single_video`) -/

/-- `ensure_scheme` from `main.py`: prepend `https://` unless the URL
already starts with `http://` or `https://`. -/
def ensure_scheme (url : Chars) : Chars :=
  if !((toL "http://").isPrefixOf url || (toL "https://").isPrefixOf url) then
    toL "https://" ++ url
  else url

/-- The allow-listed domains of `is_youtube_url`. -/
def valid_domains : List Chars := [toL "youtube.com", toL "youtu.be"]

/-- `is_youtube_url` from `main.py`: the host equals an allow-listed domain
or ends with `'.' + domain`. -/
def is_youtube_url (url : Chars) : Bool :=
  let nurl := ensure_scheme url
  let host := url_hostname nurl
  valid_domains.any (fun d => host == d || ('.' :: d).isSuffixOf host)

/-- Python exception classes the program distinguishes in its `__main__`
handlers.  Both `raise ValueError` sites (non-YouTube URL in `main`,
unrecognised path shape in `is_single_video`) construct a `valueError`. -/
inductive PyExc where
  | clickException (code : Int)
  | valueError (msg : Chars)
  | downloadError (msg : Chars)
  | otherError (msg : Chars)
deriving DecidableEq

/-- The `ValueError` message of `is_single_video`'s failure branch,
interpolating the (already normalised) URL. -/
def structure_error_msg (u : Chars) : Chars :=
  toL "Unsupported or invalid YouTube URL structure: \"" ++ u ++ toL "\""

/-- `is_single_video` from `main.py`. -/
def is_single_video (url : Chars) : Except PyExc Bool :=
  let nurl := ensure_scheme url
  let host := url_hostname nurl
  let path := url_path nurl
  if host == toL "youtu.be" || host == toL "www.youtu.be" then .ok true
  else if (toL "/watch").isPrefixOf path || (toL "/shorts/").isPrefixOf path ||
      (toL "/live/").isPrefixOf path then .ok true
  else if (toL "/playlist").isPrefixOf path then .ok false
  else .error (.valueError (structure_error_msg nurl))

/-! ## Author derivation (`download_single_video`, steps 2–3) -/

/-- The four metadata fields `download_single_video` reads with
`info.get(...)`; `none` models an absent key. -/
structure Metadata where
  channel : Option Chars
  uploader : Option Chars
  creator : Option Chars
  uploader_id : Option Chars

/-- Python's `a or b` for an optional string `a`: `b` when `a` is absent
(`None`) or empty (falsy), else `a`. -/
def pyOrStr (a : Option Chars) (b : Chars) : Chars :=
  match a with
  | some s => if s.isEmpty then b else s
  | none => b

/-- The author computation of `download_single_video`: the `or`-chain over
`channel`, `uploader`, `creator`, `uploader_id` with fallback
`'Unknown Author'`, then one leading `'@'` removed via `author[1:]`. -/
def derive_author (info : Metadata) : Chars :=
  let author :=
    pyOrStr info.channel (pyOrStr info.uploader (pyOrStr info.creator
      (pyOrStr info.uploader_id (toL "Unknown Author"))))
  if (toL "@").isPrefixOf author then author.drop 1 else author

/-- Modelled from the spec: the author label is the first non-absent,
non-empty value among the four fields in order, defaulting to
`'Unknown Author'`, with exactly one leading `'@'` stripped if present. -/
def firstNonEmpty : List (Option Chars) → Chars → Chars
  | [], dflt => dflt
  | none :: rest, dflt => firstNonEmpty rest dflt
  | some s :: rest, dflt => if s = [] then firstNonEmpty rest dflt else s

/-- Modelled from the spec: author derivation as C4 states it. -/
def spec_author (info : Metadata) : Chars :=
  let a := firstNonEmpty [info.channel, info.uploader, info.creator, info.uploader_id]
      (toL "Unknown Author")
  if a.head? = some '@' then a.drop 1 else a

/-- The single-item output template `download_single_video` writes into
`ydl.params['outtmpl']['default']`: `f'{author} - %(title)s.%(ext)s'`. -/
def single_video_outtmpl (info : Metadata) : Chars :=
  derive_author info ++ toL " - %(title)s.%(ext)s"

/-! ## Log adapter (`YtDlpStructlogAdapter`) -/

/-- The characters Python's `str.strip()` removes (ASCII fragment). -/
def isPySpace (c : Char) : Bool :=
  c == ' ' || c == '\t' || c == '\n' || c == '\x0b' || c == '\x0c' || c == '\r'

/-- Python `str.strip()`. -/
def pyStrip (s : Chars) : Chars :=
  ((s.dropWhile isPySpace).reverse.dropWhile isPySpace).reverse

/-- Python `s.replace(pat, '', 1)` for a non-empty `pat`: remove the first
occurrence of `pat`, anywhere in `s`; `s` unchanged when `pat` does not
occur. -/
def replaceFirst (s pat : Chars) : Chars :=
  match s with
  | [] => []
  | c :: rest =>
    if pat.isPrefixOf (c :: rest) then (c :: rest).drop pat.length
    else c :: replaceFirst rest pat

/-- A structured log event: level, event name, detail. -/
inductive LogEvent where
  | debugEv (event detail : Chars)
  | infoEv (event detail : Chars)
  | warnEv (event detail : Chars)
  | errorEv (event detail : Chars)
deriving DecidableEq

/-- `YtDlpStructlogAdapter.warning`: drop blank input, else emit a warning
event whose detail is `msg.replace('WARNING:', '', 1).strip()`. -/
def adapter_warning (msg : Chars) : List LogEvent :=
  if (pyStrip msg).isEmpty then []
  else [.warnEv (toL "yt_dlp_warning") (pyStrip (replaceFirst msg (toL "WARNING:")))]

/-- `YtDlpStructlogAdapter.error`: drop blank input, else emit an error
event whose detail is `msg.replace('ERROR:', '', 1).strip()`. -/
def adapter_error (msg : Chars) : List LogEvent :=
  if (pyStrip msg).isEmpty then []
  else [.errorEv (toL "yt_dlp_error") (pyStrip (replaceFirst msg (toL "ERROR:")))]

/-! ## Entry point and exit codes (`main` and the `__main__` handlers) -/

/-- The `ValueError` message of `main`'s platform check. -/
def invalid_url_msg (u : Chars) : Chars :=
  toL "Not a valid YouTube URL: \"" ++ u ++ toL "\""

/-- The validation/classification part of `main`: reject non-platform URLs
with a `ValueError`, otherwise classify via `is_single_video` (which may
itself raise a `ValueError`). -/
def main_validate (url : Chars) : Except PyExc Bool :=
  if !(is_youtube_url url) then .error (.valueError (invalid_url_msg url))
  else is_single_video url

/-- `main` seen as: validate and classify, then run the dispatched download,
whose outcome (success, or an exception from the engine) is the `engine`
argument. -/
def ytd_main (url : Chars) (engine : Except PyExc Unit) : Except PyExc Unit :=
  match main_validate url with
  | .error e => .error e
  | .ok _ => engine

/-- The `__main__` exception handlers: success exits 0, `ClickException`
exits with its own code, `ValueError` 3, `DownloadError` 2, anything
else 1. -/
def handle_exit : Except PyExc Unit → Int
  | .ok _ => 0
  | .error (.clickException c) => c
  | .error (.valueError _) => 3
  | .error (.downloadError _) => 2
  | .error (.otherError _) => 1

/-! ## Heap model of the mutable configuration dictionaries

Python dictionaries have reference semantics: `get_base_ydl_params`
allocates fresh dictionaries, `copy.deepcopy` clones them recursively, and
`d[k] = v` mutates in place.  The model uses an explicit heap of
dictionaries addressed by allocation order; non-dictionary values
(strings, booleans, numbers, the frozen set `compat_opts`, the logger
adapter object) are plain values, and dictionary values are references. -/

abbrev Key := Chars

/-- A Python value as it occurs in the yt-dlp configuration. -/
inductive PVal where
  | pstr (s : Chars)
  | pbool (b : Bool)
  | pnat (n : Nat)
  | pset (ss : List Chars)
  | plist (vs : List PVal)
  | ref (a : Nat)
  | atom (name : Chars)

/-- A dictionary: association list in insertion order. -/
abbrev Dict := List (Key × PVal)

/-- The heap: dictionary number `a` lives at index `a`. -/
abbrev Heap := List Dict

/-- `d[k]` lookup. -/
def dictGet (d : Dict) (k : Key) : Option PVal :=
  (d.find? (fun p => p.1 == k)).map (fun p => p.2)

/-- `d[k] = v`: overwrite in place when the key exists, append otherwise
(Python dicts keep the original position of an existing key). -/
def dictSet (d : Dict) (k : Key) (v : PVal) : Dict :=
  if d.any (fun p => p.1 == k) then
    d.map (fun p => if p.1 == k then (k, v) else p)
  else d ++ [(k, v)]

/-- Allocate a fresh dictionary, returning its address. -/
def alloc (h : Heap) (d : Dict) : Heap × Nat :=
  (h ++ [d], h.length)

/-- `h[a][k] = v` for a dictionary address `a`. -/
def heapDictSet (h : Heap) (a : Nat) (k : Key) (v : PVal) : Option Heap :=
  match h.get? a with
  | some d => some (h.set a (dictSet d k v))
  | none => none

/-- `h[a][k1][k2] = v`: mutate a nested dictionary reached through a
reference, as `local_params['outtmpl']['default'] = ...` does. -/
def heapNestedSet (h : Heap) (a : Nat) (k1 k2 : Key) (v : PVal) : Option Heap :=
  match h.get? a with
  | some d =>
    match dictGet d k1 with
    | some (.ref b) =>
      match h.get? b with
      | some di => some (h.set b (dictSet di k2 v))
      | none => none
    | _ => none
  | none => none

/-- Read `h[a][k1][k2]` through the nested reference. -/
def heapNestedGet (h : Heap) (a : Nat) (k1 k2 : Key) : Option PVal :=
  match h.get? a with
  | some d =>
    match dictGet d k1 with
    | some (.ref b) =>
      match h.get? b with
      | some di => dictGet di k2
      | none => none
    | _ => none
  | none => none

/-- Read `h[a][k]`. -/
def heapGet (h : Heap) (a : Nat) (k : Key) : Option PVal :=
  match h.get? a with
  | some d => dictGet d k
  | none => none

/-- Worker for `copy.deepcopy`: clone a list of values left to right,
threading the heap; a dictionary reference clones the dictionary's values
and allocates a fresh dictionary; a Python list clones its elements in
place; atomic values are returned as they are.  Fuel (which every
recursive call decreases) bounds the total recursion depth; the
configurations here are small and shallow. -/
def deepcopyN : Nat → Heap → List PVal → Option (Heap × List PVal)
  | 0, _, _ => none
  | _ + 1, h, [] => some (h, [])
  | fuel + 1, h, v :: vs =>
    match v with
    | .ref a =>
      match h.get? a with
      | some d =>
        match deepcopyN fuel h (d.map (fun p => p.2)) with
        | some (h1, ws) =>
          let (h2, a1) := alloc h1 ((d.map (fun p => p.1)).zip ws)
          match deepcopyN fuel h2 vs with
          | some (h3, vs1) => some (h3, .ref a1 :: vs1)
          | none => none
        | none => none
      | none => none
    | .plist ws =>
      match deepcopyN fuel h ws with
      | some (h1, ws1) =>
        match deepcopyN fuel h1 vs with
        | some (h2, vs1) => some (h2, .plist ws1 :: vs1)
        | none => none
      | none => none
    | other =>
      match deepcopyN fuel h vs with
      | some (h1, vs1) => some (h1, other :: vs1)
      | none => none

/-- Fuel ample for the configurations built here. -/
def copyFuel : Nat := 100

/-- `copy.deepcopy` of one value. -/
def deepcopyVal (fuel : Nat) (h : Heap) (v : PVal) : Option (Heap × PVal) :=
  match deepcopyN fuel h [v] with
  | some (h1, [v1]) => some (h1, v1)
  | _ => none

/-! ## Configuration builder (`get_base_ydl_params`) -/

/-- The nested `'outtmpl'` dictionary literal of `get_base_ydl_params`. -/
def outtmpl_dict : Dict :=
  [(toL "default", .pstr []), (toL "pl_thumbnail", .pstr [])]

/-- First post-processor dictionary literal (`FFmpegEmbedSubtitle`). -/
def pp1_dict : Dict :=
  [(toL "already_have_subtitle", .pbool false),
   (toL "key", .pstr (toL "FFmpegEmbedSubtitle"))]

/-- Second post-processor dictionary literal (`FFmpegMetadata`). -/
def pp2_dict : Dict :=
  [(toL "add_chapters", .pbool true),
   (toL "add_infojson", .pstr (toL "if_exists")),
   (toL "add_metadata", .pbool true),
   (toL "key", .pstr (toL "FFmpegMetadata"))]

/-- Third post-processor dictionary literal (`EmbedThumbnail`). -/
def pp3_dict : Dict :=
  [(toL "already_have_thumbnail", .pbool false),
   (toL "key", .pstr (toL "EmbedThumbnail"))]

/-- Fourth post-processor dictionary literal (`FFmpegConcat`). -/
def pp4_dict : Dict :=
  [(toL "key", .pstr (toL "FFmpegConcat")),
   (toL "only_multi_video", .pbool true),
   (toL "when", .pstr (toL "playlist"))]

/-- The nested `'http_headers'` dictionary literal. -/
def headers_dict : Dict :=
  [(toL "User-Agent",
    .pstr (toL "Mozilla/5.0 (iPhone17,5; CPU iPhone OS 18_3_2 like Mac OS X) AppleWebKit/605.1.15 (KHTML, like Gecko) Mobile/15E148 FireKeepers/1.7.0"))]

/-- The outer configuration dictionary of `get_base_ydl_params`, given the
addresses of its six nested dictionaries. -/
def base_entries (outtmpl pp1 pp2 pp3 pp4 headers : Nat) : Dict :=
  [(toL "allow_multiple_audio_streams", .pbool true),
    (toL "compat_opts", .pset [toL "no-certifi"]),
    (toL "extract_flat", .pstr (toL "discard_in_playlist")),
    (toL "format", .pstr (toL "bestvideo+bestaudio[language^=ru]+bestaudio[language^=en]/bestvideo+bestaudio[language^=ru]/bestvideo+bestaudio[language^=en]/bestvideo+bestaudio/best")),
    (toL "ignoreerrors", .pstr (toL "only_download")),
    (toL "outtmpl", .ref outtmpl),
    (toL "postprocessors", .plist [.ref pp1, .ref pp2, .ref pp3, .ref pp4]),
    (toL "subtitleslangs", .plist [.pstr (toL "ru"), .pstr (toL "en")]),
    (toL "updatetime", .pbool true),
    (toL "warn_when_outdated", .pbool true),
    (toL "windowsfilenames", .pbool true),
    (toL "writesubtitles", .pbool true),
    (toL "writethumbnail", .pbool true),
    (toL "merge_output_format", .pstr (toL "mkv/mp4")),
    (toL "http_headers", .ref headers),
    (toL "continuedl", .pbool true),
    (toL "retries", .pnat 15),
    (toL "fragment_retries", .pnat 15),
    (toL "skip_unavailable_fragments", .pbool false),
    (toL "retry_sleep", .pnat 5),
    (toL "remote_components", .plist [.pstr (toL "ejs:github")]),
    (toL "embeddescription", .pbool true),
    (toL "noprogress", .pbool true),
    (toL "logger", .atom (toL "YtDlpStructlogAdapter"))]

/-- `get_base_ydl_params`: build the base configuration dictionary, fresh on
every call.  Nested dictionary literals are allocated in Python's
evaluation order (the `outtmpl` dictionary, the four post-processor
dictionaries, the `http_headers` dictionary, then the outer dictionary). -/
def get_base_ydl_params (h : Heap) : Heap × Nat :=
  let (h, outtmpl) := alloc h outtmpl_dict
  let (h, pp1) := alloc h pp1_dict
  let (h, pp2) := alloc h pp2_dict
  let (h, pp3) := alloc h pp3_dict
  let (h, pp4) := alloc h pp4_dict
  let (h, headers) := alloc h headers_dict
  alloc h (base_entries outtmpl pp1 pp2 pp3 pp4 headers)

/-- The seven dictionaries one call of `get_base_ydl_params` appends to a
heap that already has `n` dictionaries. -/
def baseSeg (n : Nat) : List Dict :=
  [outtmpl_dict, pp1_dict, pp2_dict, pp3_dict, pp4_dict, headers_dict,
   base_entries n (n + 1) (n + 2) (n + 3) (n + 4) (n + 5)]

/-! ## Download orchestrator (`download_single_video`, `download_playlist`) -/

/-- A call into the external engine. -/
inductive EngineCall where
  | extract_info (url : Chars) (download : Bool)
  | download (urls : List Chars)
deriving DecidableEq

/-- Outcome of a download operation's configuration handling: the final
heap, the address of the request's own configuration copy, and the engine
calls made, in order. -/
structure DownloadRun where
  heap : Heap
  cfg : Nat
  calls : List EngineCall

/-- `download_playlist`'s fixed nested output template. -/
def playlist_outtmpl : Chars :=
  toL "%(channel)s - %(playlist_title)s/%(playlist_index)03d - %(title)s.%(ext)s"

/-- `download_single_video`: deep-copy the base configuration, set
`cookiefile` when a cookie path is given, pre-fetch metadata
(`extract_info` with `download=False`; `extracted = none` models the
engine returning `None`, turned into `{}` by `or {}`), derive the author,
write the single-item output template into the copy's `outtmpl`, then
download the one URL. -/
def download_single_video (h : Heap) (url : Chars) (params : Nat)
    (cookies : Chars) (extracted : Option Metadata) : Option DownloadRun :=
  match deepcopyVal copyFuel h (.ref params) with
  | some (h1, .ref a) =>
    match (if cookies.isEmpty then some h1
           else heapDictSet h1 a (toL "cookiefile") (.pstr cookies)) with
    | some h2 =>
      let info := extracted.getD ⟨none, none, none, none⟩
      match heapNestedSet h2 a (toL "outtmpl") (toL "default")
          (.pstr (single_video_outtmpl info)) with
      | some h3 => some ⟨h3, a, [.extract_info url false, .download [url]]⟩
      | none => none
    | none => none
  | _ => none

/-- `download_playlist`: deep-copy the base configuration, write the fixed
nested output template into the copy's `outtmpl`, set `cookiefile` when a
cookie path is given, then download the one collection URL with no
pre-flight metadata fetch. -/
def download_playlist (h : Heap) (url : Chars) (params : Nat)
    (cookies : Chars) : Option DownloadRun :=
  match deepcopyVal copyFuel h (.ref params) with
  | some (h1, .ref a) =>
    match heapNestedSet h1 a (toL "outtmpl") (toL "default")
        (.pstr playlist_outtmpl) with
    | some h2 =>
      match (if cookies.isEmpty then some h2
             else heapDictSet h2 a (toL "cookiefile") (.pstr cookies)) with
      | some h3 => some ⟨h3, a, [.download [url]]⟩
      | none => none
    | none => none
  | _ => none

/-! ## Observers on a download run's result -/

/-- The `outtmpl` sub-dictionary entry `k` of the run's own configuration
copy. -/
def run_self_outtmpl (r? : Option DownloadRun) (k : Key) : Option PVal :=
  match r? with
  | some r => heapNestedGet r.heap r.cfg (toL "outtmpl") k
  | none => none

/-- The `outtmpl` sub-dictionary entry `k` of some other configuration
(such as the shared base) after the run. -/
def run_other_outtmpl (r? : Option DownloadRun) (a : Nat) (k : Key) : Option PVal :=
  match r? with
  | some r => heapNestedGet r.heap a (toL "outtmpl") k
  | none => none

/-- A top-level key of the run's own configuration copy. -/
def run_cfg_key (r? : Option DownloadRun) (k : Key) : Option PVal :=
  match r? with
  | some r => heapGet r.heap r.cfg k
  | none => none

/-- The engine calls the run performed, in order. -/
def run_calls (r? : Option DownloadRun) : Option (List EngineCall) :=
  match r? with
  | some r => some r.calls
  | none => none

end Ytd

namespace Ytd

/-! ## Theorems about the URL classifier -/

/-- Claim C1: `is_single_video` classifies platform URLs by the branch order
of its source: for the short-link host (`youtu.be`, optionally with `www.`)
it returns `true` regardless of path; otherwise it returns `true` when the
path begins with `/watch`, `/shorts/` or `/live/`, `false` when the path
begins with `/playlist`, and for every other path shape it fails with the
unrecognised-structure `ValueError` carrying the offending (normalised) URL.
The five example URLs of the spec behave as stated. -/
theorem C1_is_single_video_classification :
    (∀ url : Chars,
        (url_hostname (ensure_scheme url) = toL "youtu.be" ∨
         url_hostname (ensure_scheme url) = toL "www.youtu.be") →
        is_single_video url = .ok true) ∧
    (∀ url : Chars,
        url_hostname (ensure_scheme url) ≠ toL "youtu.be" →
        url_hostname (ensure_scheme url) ≠ toL "www.youtu.be" →
        ((toL "/watch").isPrefixOf (url_path (ensure_scheme url)) = true ∨
         (toL "/shorts/").isPrefixOf (url_path (ensure_scheme url)) = true ∨
         (toL "/live/").isPrefixOf (url_path (ensure_scheme url)) = true) →
        is_single_video url = .ok true) ∧
    (∀ url : Chars,
        url_hostname (ensure_scheme url) ≠ toL "youtu.be" →
        url_hostname (ensure_scheme url) ≠ toL "www.youtu.be" →
        (toL "/watch").isPrefixOf (url_path (ensure_scheme url)) = false →
        (toL "/shorts/").isPrefixOf (url_path (ensure_scheme url)) = false →
        (toL "/live/").isPrefixOf (url_path (ensure_scheme url)) = false →
        (toL "/playlist").isPrefixOf (url_path (ensure_scheme url)) = true →
        is_single_video url = .ok false) ∧
    (∀ url : Chars,
        url_hostname (ensure_scheme url) ≠ toL "youtu.be" →
        url_hostname (ensure_scheme url) ≠ toL "www.youtu.be" →
        (toL "/watch").isPrefixOf (url_path (ensure_scheme url)) = false →
        (toL "/shorts/").isPrefixOf (url_path (ensure_scheme url)) = false →
        (toL "/live/").isPrefixOf (url_path (ensure_scheme url)) = false →
        (toL "/playlist").isPrefixOf (url_path (ensure_scheme url)) = false →
        is_single_video url = .error (.valueError (structure_error_msg (ensure_scheme url)))) ∧
    is_single_video (toL "https://youtu.be/abc123") = .ok true ∧
    is_single_video (toL "https://www.youtube.com/watch?v=abc123") = .ok true ∧
    is_single_video (toL "https://www.youtube.com/shorts/abc123") = .ok true ∧
    is_single_video (toL "https://www.youtube.com/playlist?list=xyz") = .ok false ∧
    is_single_video (toL "https://www.youtube.com/some/other/path") =
      .error (.valueError (structure_error_msg (toL "https://www.youtube.com/some/other/path"))) := by
  refine ⟨?_, ?_, ?_, ?_, rfl, rfl, rfl, rfl, rfl⟩
  · rintro url (h | h) <;> simp [is_single_video, h]
  · rintro url h1 h2 (h | h | h) <;> simp [is_single_video, h1, h2, h]
  · intro url h1 h2 hp1 hp2 hp3 hpl
    simp [is_single_video, h1, h2, hp1, hp2, hp3, hpl]
  · intro url h1 h2 hp1 hp2 hp3 hpl
    simp [is_single_video, h1, h2, hp1, hp2, hp3, hpl]

/-- Witness for C1's conditional clauses, instantiated at concrete URLs
exercising each branch. -/
theorem C1_is_single_video_classification_witness :
    is_single_video (toL "https://youtu.be/whatever/path") = .ok true ∧
    is_single_video (toL "https://music.youtube.com/watch?v=a") = .ok true ∧
    is_single_video (toL "https://m.youtube.com/playlist?list=a") = .ok false ∧
    is_single_video (toL "https://www.youtube.com/feed/history") =
      .error (.valueError (structure_error_msg (toL "https://www.youtube.com/feed/history"))) :=
  ⟨C1_is_single_video_classification.1 _ (by left; decide),
   C1_is_single_video_classification.2.1 _ (by decide) (by decide) (by left; decide),
   C1_is_single_video_classification.2.2.1 _ (by decide) (by decide) (by decide) (by decide)
     (by decide) (by decide),
   C1_is_single_video_classification.2.2.2.1 _ (by decide) (by decide) (by decide) (by decide)
     (by decide) (by decide)⟩

/-- Claim C2: `is_youtube_url` holds exactly when the normalised URL's host
equals an allow-listed domain or ends with `'.' + domain`; an absent host is
the empty string and is never accepted. -/
theorem C2_is_youtube_url_allowlist :
    (∀ url : Chars,
        is_youtube_url url = true ↔
          (url_hostname (ensure_scheme url) = toL "youtube.com" ∨
           ('.' :: toL "youtube.com") <:+ url_hostname (ensure_scheme url) ∨
           url_hostname (ensure_scheme url) = toL "youtu.be" ∨
           ('.' :: toL "youtu.be") <:+ url_hostname (ensure_scheme url))) ∧
    (∀ url : Chars,
        url_hostname (ensure_scheme url) = [] → is_youtube_url url = false) := by
  constructor
  · intro url
    simp [is_youtube_url, valid_domains, List.isSuffixOf_iff_suffix, or_assoc,
      Bool.or_eq_true, beq_iff_eq]
  · intro url h
    simp [is_youtube_url, valid_domains, h, List.isSuffixOf_iff_suffix, toL]

/-- Witness for C2's empty-host clause: the empty URL normalises to
`https://` with no host and is rejected. -/
theorem C2_is_youtube_url_allowlist_witness :
    is_youtube_url (toL "") = false :=
  C2_is_youtube_url_allowlist.2 (toL "") (by decide)

/-- Claim C3: `ensure_scheme` prepends `https://` exactly once to a URL
missing a scheme, returns a URL that already has a scheme unchanged, and
is idempotent. -/
theorem C3_ensure_scheme_normalisation :
    (∀ url : Chars,
        ((toL "http://").isPrefixOf url || (toL "https://").isPrefixOf url) = false →
        ensure_scheme url = toL "https://" ++ url) ∧
    (∀ url : Chars,
        ((toL "http://").isPrefixOf url || (toL "https://").isPrefixOf url) = true →
        ensure_scheme url = url) ∧
    (∀ url : Chars, ensure_scheme (ensure_scheme url) = ensure_scheme url) := by
  refine ⟨fun url h => by simp [ensure_scheme, h], fun url h => by simp [ensure_scheme, h], ?_⟩
  intro url
  cases h : ((toL "http://").isPrefixOf url || (toL "https://").isPrefixOf url) with
  | true => simp [ensure_scheme, h]
  | false =>
    have hpre : (toL "https://").isPrefixOf (toL "https://" ++ url) = true := by
      rw [ List.isPrefixOf_iff_prefix]
      exact List.prefix_append _ _
    simp [ensure_scheme, h, hpre]

/-! ## Author derivation theorems -/

theorem strip_head_eq (s : Chars) :
    (if (toL "@").isPrefixOf s then s.drop 1 else s) =
    (if s.head? = some '@' then s.drop 1 else s) := by
  cases s with
  | nil => simp [toL, List.isPrefixOf]
  | cons c cs =>
    have h1 : (toL "@").isPrefixOf (c :: cs) = ('@' == c) := by
      simp [toL, List.isPrefixOf]
    by_cases hc : c = '@'
    · subst hc; simp [h1]
    · have h2 : ('@' == c) = false := beq_eq_false_iff_ne.mpr (fun h => hc h.symm)
      simp [h1, h2, hc]

theorem firstNonEmpty_cons (a : Option Chars) (rest : List (Option Chars)) (d : Chars) :
    firstNonEmpty (a :: rest) d = pyOrStr a (firstNonEmpty rest d) := by
  cases a with
  | none => simp [firstNonEmpty, pyOrStr]
  | some s => simp [firstNonEmpty, pyOrStr, List.isEmpty_iff]

/-- Claim C4: the derived author label is the first non-absent, non-empty
value among `channel`, `uploader`, `creator`, `uploader_id`, in that
order, defaulting to `'Unknown Author'`, and then exactly one leading
`'@'` is stripped if present.  In particular an empty channel with
uploader `'@JohnDoe'` yields `'JohnDoe'`, and all-absent or all-empty
metadata yields `'Unknown Author'`. -/
theorem C4_author_derivation :
    (∀ info : Metadata, derive_author info = spec_author info) ∧
    derive_author ⟨some [], some (toL "@JohnDoe"), none, none⟩ = toL "JohnDoe" ∧
    derive_author ⟨none, none, none, none⟩ = toL "Unknown Author" ∧
    derive_author ⟨some [], some [], some [], some []⟩ = toL "Unknown Author" := by
  refine ⟨?_, rfl, rfl, rfl⟩
  intro info
  rcases info with ⟨c, u, cr, uid⟩
  simp only [derive_author, spec_author, strip_head_eq, firstNonEmpty_cons, firstNonEmpty]

/-- Claim C10: when the first non-empty metadata field is exactly `'@'`,
the derived author is the empty string (the `'Unknown Author'` fallback is
not re-applied after stripping), and the single-item output template
becomes `' - %(title)s.%(ext)s'` with an empty author prefix, as the
download run's configuration copy records. -/
theorem C10_at_only_author_empty :
    derive_author ⟨some (toL "@"), none, none, none⟩ = [] ∧
    derive_author ⟨some [], some (toL "@"), none, none⟩ = [] ∧
    single_video_outtmpl ⟨some (toL "@"), none, none, none⟩ = toL " - %(title)s.%(ext)s" ∧
    run_self_outtmpl (download_single_video (get_base_ydl_params []).1
        (toL "https://youtu.be/x") (get_base_ydl_params []).2 []
        (some ⟨some (toL "@"), none, none, none⟩)) (toL "default") =
      some (.pstr (toL " - %(title)s.%(ext)s")) :=
  ⟨rfl, rfl, rfl, rfl⟩

/-! ## Exit-code theorems -/

/-- Claim C5: the entry point exits 0 on success, with the
`ClickException`'s own code on usage errors, 3 on both `ValueError` sites
(non-platform URL and unrecognised path shape), 2 on a `DownloadError`
from the engine, and 1 on any other unhandled exception. -/
theorem C5_exit_code_mapping :
    handle_exit (.ok ()) = 0 ∧
    (∀ c : Int, handle_exit (.error (.clickException c)) = c) ∧
    (∀ m : Chars, handle_exit (.error (.valueError m)) = 3) ∧
    (∀ m : Chars, handle_exit (.error (.downloadError m)) = 2) ∧
    (∀ m : Chars, handle_exit (.error (.otherError m)) = 1) ∧
    (∀ url : Chars, ∀ engine : Except PyExc Unit, is_youtube_url url = false →
        handle_exit (ytd_main url engine) = 3) ∧
    (∀ url m : Chars, ∀ engine : Except PyExc Unit,
        is_youtube_url url = true → is_single_video url = .error (.valueError m) →
        handle_exit (ytd_main url engine) = 3) ∧
    (∀ url m : Chars, ∀ b : Bool,
        is_youtube_url url = true → is_single_video url = .ok b →
        handle_exit (ytd_main url (.ok ())) = 0 ∧
        handle_exit (ytd_main url (.error (.downloadError m))) = 2) := by
  refine ⟨rfl, fun c => rfl, fun m => rfl, fun m => rfl, fun m => rfl, ?_, ?_, ?_⟩
  · intro url engine h
    simp [ytd_main, main_validate, h, handle_exit]
  · intro url m engine h hs
    simp [ytd_main, main_validate, h, hs, handle_exit]
  · intro url m b h hs
    exact ⟨by simp [ytd_main, main_validate, h, hs, handle_exit],
           by simp [ytd_main, main_validate, h, hs, handle_exit]⟩

/-- Witness for C5's conditional clauses at concrete URLs: a non-platform
URL exits 3, an unrecognised platform path exits 3, a valid single-video
URL exits 0 on success and 2 on an engine `DownloadError`. -/
theorem C5_exit_code_mapping_witness :
    handle_exit (ytd_main (toL "https://example.com/watch?v=a") (.ok ())) = 3 ∧
    handle_exit (ytd_main (toL "https://www.youtube.com/some/other/path")
      (.ok ())) = 3 ∧
    handle_exit (ytd_main (toL "https://youtu.be/abc123") (.ok ())) = 0 ∧
    handle_exit (ytd_main (toL "https://youtu.be/abc123")
      (.error (.downloadError (toL "boom")))) = 2 :=
  ⟨C5_exit_code_mapping.2.2.2.2.2.1 _ _ (by decide),
   C5_exit_code_mapping.2.2.2.2.2.2.1 _ _ _ (by decide) rfl,
   (C5_exit_code_mapping.2.2.2.2.2.2.2 (toL "https://youtu.be/abc123") (toL "boom") true
     (by decide) rfl).1,
   (C5_exit_code_mapping.2.2.2.2.2.2.2 (toL "https://youtu.be/abc123") (toL "boom") true
     (by decide) rfl).2⟩

/-- Claim C9: a proper subdomain of `youtu.be` other than `www` passes
`is_youtube_url` via the dot-suffix match, but `is_single_video`'s
short-link rule matches only the exact hosts `youtu.be` and
`www.youtu.be`, so when the path matches no single-item nor playlist
prefix the URL is rejected with the unrecognised-structure error and the
process exits with code 3 — concretely so for
`https://m.youtu.be/abc123`. -/
theorem C9_subdomain_shortlink_gap :
    (∀ url : Chars,
        ('.' :: toL "youtu.be").isSuffixOf (url_hostname (ensure_scheme url)) = true →
        url_hostname (ensure_scheme url) ≠ toL "www.youtu.be" →
        is_youtube_url url = true ∧
        ((toL "/watch").isPrefixOf (url_path (ensure_scheme url)) = false →
         (toL "/shorts/").isPrefixOf (url_path (ensure_scheme url)) = false →
         (toL "/live/").isPrefixOf (url_path (ensure_scheme url)) = false →
         (toL "/playlist").isPrefixOf (url_path (ensure_scheme url)) = false →
         is_single_video url = .error (.valueError (structure_error_msg (ensure_scheme url))) ∧
         (∀ engine : Except PyExc Unit, handle_exit (ytd_main url engine) = 3))) ∧
    is_youtube_url (toL "https://m.youtu.be/abc123") = true ∧
    is_single_video (toL "https://m.youtu.be/abc123") =
      .error (.valueError (structure_error_msg (toL "https://m.youtu.be/abc123"))) ∧
    handle_exit (ytd_main (toL "https://m.youtu.be/abc123") (.ok ())) = 3 := by
  refine ⟨?_, by decide, rfl, rfl⟩
  intro url hsuf hwww
  have hsuf' : ('.' :: toL "youtu.be") <:+ url_hostname (ensure_scheme url) :=
    List.isSuffixOf_iff_suffix.mp hsuf
  have hyt : is_youtube_url url = true := by
    simp [is_youtube_url, valid_domains, List.isSuffixOf_iff_suffix]
    tauto
  have hne : url_hostname (ensure_scheme url) ≠ toL "youtu.be" := by
    intro he
    rw [he] at hsuf'
    have hlen := hsuf'.length_le
    have h9 : ('.' :: toL "youtu.be").length = 9 := rfl
    have h8 : (toL "youtu.be").length = 8 := rfl
    omega
  refine ⟨hyt, ?_⟩
  intro hp1 hp2 hp3 hp4
  have hsv : is_single_video url =
      .error (.valueError (structure_error_msg (ensure_scheme url))) := by
    simp [is_single_video, hne, hwww, hp1, hp2, hp3, hp4]
  exact ⟨hsv, fun engine => by simp [ytd_main, main_validate, hyt, hsv, handle_exit]⟩

/-- Witness for C9's general clause at a second concrete subdomain URL. -/
theorem C9_subdomain_shortlink_gap_witness :
    is_youtube_url (toL "https://music.youtu.be/clip42") = true ∧
    is_single_video (toL "https://music.youtu.be/clip42") =
      .error (.valueError (structure_error_msg (toL "https://music.youtu.be/clip42"))) ∧
    handle_exit (ytd_main (toL "https://music.youtu.be/clip42")
      (.error (.otherError (toL "never reached")))) = 3 :=
  ⟨(C9_subdomain_shortlink_gap.1 _ (by decide) (by decide)).1,
   ((C9_subdomain_shortlink_gap.1 _ (by decide) (by decide)).2
      (by decide) (by decide) (by decide) (by decide)).1,
   ((C9_subdomain_shortlink_gap.1 _ (by decide) (by decide)).2
      (by decide) (by decide) (by decide) (by decide)).2 _⟩

/-! ## Configuration isolation theorems -/

/-- Claim C6: every call of `get_base_ydl_params` only appends seven fresh
dictionaries to the heap (leaving every existing dictionary untouched) and
returns the fresh outer address; two sequential calls return distinct
configurations, and writing any value into the first configuration's
nested `outtmpl` mapping leaves the second's at its original `''` while
the first records the write; and a download operation's mutations (output
template and credential path) never reach the shared base configuration
nor an earlier request's copy. -/
theorem C6_configuration_isolation :
    (∀ h : Heap, get_base_ydl_params h = (h ++ baseSeg h.length, h.length + 6)) ∧
    (get_base_ydl_params []).2 ≠ (get_base_ydl_params (get_base_ydl_params []).1).2 ∧
    (∀ v : PVal,
      (heapNestedSet (get_base_ydl_params (get_base_ydl_params []).1).1
          (get_base_ydl_params []).2 (toL "outtmpl") (toL "default") v).bind
        (fun h3 => heapNestedGet h3 (get_base_ydl_params (get_base_ydl_params []).1).2
            (toL "outtmpl") (toL "default")) = some (.pstr []) ∧
      (heapNestedSet (get_base_ydl_params (get_base_ydl_params []).1).1
          (get_base_ydl_params []).2 (toL "outtmpl") (toL "default") v).bind
        (fun h3 => heapNestedGet h3 (get_base_ydl_params []).2
            (toL "outtmpl") (toL "default")) = some v) ∧
    (∀ url : Chars, ∀ extracted : Option Metadata,
      run_other_outtmpl (download_single_video (get_base_ydl_params []).1 url
          (get_base_ydl_params []).2 (toL "/tmp/cookies.txt") extracted)
        (get_base_ydl_params []).2 (toL "default") = some (.pstr []) ∧
      run_other_outtmpl (download_single_video (get_base_ydl_params []).1 url
          (get_base_ydl_params []).2 [] extracted)
        (get_base_ydl_params []).2 (toL "default") = some (.pstr [])) ∧
    (download_single_video (get_base_ydl_params []).1 (toL "https://youtu.be/a")
        (get_base_ydl_params []).2 (toL "/tmp/c1")
        (some ⟨some (toL "Alice"), none, none, none⟩)).bind (fun r1 =>
      (download_playlist r1.heap (toL "https://www.youtube.com/playlist?list=b")
          (get_base_ydl_params []).2 (toL "/tmp/c2")).bind (fun r2 =>
        some (heapNestedGet r2.heap (get_base_ydl_params []).2 (toL "outtmpl") (toL "default"),
          heapNestedGet r2.heap r1.cfg (toL "outtmpl") (toL "default"),
          heapNestedGet r2.heap r2.cfg (toL "outtmpl") (toL "default")))) =
      some (some (.pstr []), some (.pstr (toL "Alice - %(title)s.%(ext)s")),
        some (.pstr playlist_outtmpl)) := by
  refine ⟨?_, by decide, fun v => ⟨rfl, rfl⟩, fun url extracted => ⟨rfl, rfl⟩, rfl⟩
  intro h
  simp [get_base_ydl_params, alloc, baseSeg, List.append_assoc]

/-- Claim C7: `download_playlist` deep-copies the base configuration, sets
the copy's default output template to the fixed nested collection
template, records the credential path in the copy exactly when one is
given, and performs a single engine call downloading the one collection
URL with no pre-flight metadata extraction; the shared base template is
untouched. -/
theorem C7_download_playlist_contract :
    ∀ url cookies : Chars,
      run_self_outtmpl (download_playlist (get_base_ydl_params []).1 url
          (get_base_ydl_params []).2 cookies) (toL "default") =
        some (.pstr playlist_outtmpl) ∧
      run_cfg_key (download_playlist (get_base_ydl_params []).1 url
          (get_base_ydl_params []).2 cookies) (toL "cookiefile") =
        (if cookies.isEmpty then none else some (.pstr cookies)) ∧
      run_calls (download_playlist (get_base_ydl_params []).1 url
          (get_base_ydl_params []).2 cookies) = some [.download [url]] ∧
      run_other_outtmpl (download_playlist (get_base_ydl_params []).1 url
          (get_base_ydl_params []).2 cookies) (get_base_ydl_params []).2
        (toL "default") = some (.pstr []) := by
  intro url cookies
  cases cookies with
  | nil => exact ⟨rfl, rfl, rfl, rfl⟩
  | cons c cs => exact ⟨rfl, rfl, rfl, rfl⟩

/-! ## Log adapter theorems -/

theorem replaceFirst_no_occurrence (s pat : Chars)
    (h : ∀ i, i < s.length → pat.isPrefixOf (s.drop i) = false) :
    replaceFirst s pat = s := by
  induction s with
  | nil => rfl
  | cons c cs ih =>
    have h0 : pat.isPrefixOf (c :: cs) = false := by
      have := h 0 (by simp)
      simpa using this
    have h' : ∀ i, i < cs.length → pat.isPrefixOf (cs.drop i) = false := by
      intro i hi
      have := h (i + 1) (by simpa using Nat.succ_lt_succ hi)
      simpa using this
    simp [replaceFirst, h0, ih h']

theorem replaceFirst_first_occurrence (a b pat : Chars) (hpat : pat ≠ [])
    (h : ∀ i, i < a.length → pat.isPrefixOf ((a ++ pat ++ b).drop i) = false) :
    replaceFirst (a ++ pat ++ b) pat = a ++ b := by
  induction a with
  | nil =>
    cases pat with
    | nil => exact absurd rfl hpat
    | cons p ps =>
      have hpre : (p :: ps).isPrefixOf ((p :: ps) ++ b) = true := by
        rw [ List.isPrefixOf_iff_prefix]
        exact List.prefix_append _ _
      simp [replaceFirst, hpre, List.drop_left]
  | cons x a' ih =>
    have h0 : pat.isPrefixOf (x :: (a' ++ pat ++ b)) = false := by
      have := h 0 (by simp)
      simpa using this
    have h' : ∀ i, i < a'.length → pat.isPrefixOf ((a' ++ pat ++ b).drop i) = false := by
      intro i hi
      have := h (i + 1) (by simp; omega)
      simpa using this
    calc replaceFirst ((x :: a') ++ pat ++ b) pat
        = replaceFirst (x :: (a' ++ pat ++ b)) pat := by simp
      _ = x :: replaceFirst (a' ++ pat ++ b) pat := by
          simp only [replaceFirst, h0, Bool.false_eq_true, if_false]
      _ = x :: (a' ++ b) := by rw [ih h']
      _ = (x :: a') ++ b := by simp

/-- Counterexample for claim C8: the input `'loaded WARNING: config'` does
not begin with the `'WARNING:'` marker and is already trimmed, so per the
claim its warning event detail would be the input itself; the adapter
instead removes the marker's first occurrence anywhere and emits
`'loaded  config'`. -/
theorem C8_log_adapter_counterexample :
    (toL "WARNING:").isPrefixOf (toL "loaded WARNING: config") = false ∧
    pyStrip (toL "loaded WARNING: config") = toL "loaded WARNING: config" ∧
    adapter_warning (toL "loaded WARNING: config") =
      [.warnEv (toL "yt_dlp_warning") (toL "loaded  config")] ∧
    toL "loaded  config" ≠ toL "loaded WARNING: config" :=
  ⟨by decide, rfl, rfl, by decide⟩

/-- Claim C8 (amended): on each channel, blank or whitespace-only input
emits nothing; otherwise one structured event of the channel's level is
emitted whose detail is the input with the first occurrence of the
channel's marker (`'WARNING:'` / `'ERROR:'`) removed — anywhere in the
line, not only leading — and surrounding whitespace trimmed; input not
containing the marker at all is passed through trimmed. -/
theorem C8_log_adapter_amended :
    (∀ msg : Chars, pyStrip msg = [] →
        adapter_warning msg = [] ∧ adapter_error msg = []) ∧
    (∀ msg : Chars,
        (∀ i, i < msg.length → (toL "WARNING:").isPrefixOf (msg.drop i) = false) →
        adapter_warning msg =
          (if (pyStrip msg).isEmpty then []
           else [.warnEv (toL "yt_dlp_warning") (pyStrip msg)])) ∧
    (∀ a b : Chars,
        (∀ i, i < a.length →
          (toL "WARNING:").isPrefixOf ((a ++ toL "WARNING:" ++ b).drop i) = false) →
        adapter_warning (a ++ toL "WARNING:" ++ b) =
          (if (pyStrip (a ++ toL "WARNING:" ++ b)).isEmpty then []
           else [.warnEv (toL "yt_dlp_warning") (pyStrip (a ++ b))])) ∧
    (∀ msg : Chars,
        (∀ i, i < msg.length → (toL "ERROR:").isPrefixOf (msg.drop i) = false) →
        adapter_error msg =
          (if (pyStrip msg).isEmpty then []
           else [.errorEv (toL "yt_dlp_error") (pyStrip msg)])) ∧
    (∀ a b : Chars,
        (∀ i, i < a.length →
          (toL "ERROR:").isPrefixOf ((a ++ toL "ERROR:" ++ b).drop i) = false) →
        adapter_error (a ++ toL "ERROR:" ++ b) =
          (if (pyStrip (a ++ toL "ERROR:" ++ b)).isEmpty then []
           else [.errorEv (toL "yt_dlp_error") (pyStrip (a ++ b))])) := by
  refine ⟨?_, ?_, ?_, ?_, ?_⟩
  · intro msg h
    constructor <;> simp [adapter_warning, adapter_error, h]
  · intro msg h
    rw [adapter_warning, replaceFirst_no_occurrence msg (toL "WARNING:") h]
  · intro a b h
    rw [adapter_warning, replaceFirst_first_occurrence a b (toL "WARNING:") (by decide) h]
  · intro msg h
    rw [adapter_error, replaceFirst_no_occurrence msg (toL "ERROR:") h]
  · intro a b h
    rw [adapter_error, replaceFirst_first_occurrence a b (toL "ERROR:") (by decide) h]

/-- Witness for C8 (amended) at concrete inputs: a whitespace-only line, a
marker-free line, and lines whose first marker occurrence is interior. -/
theorem C8_log_adapter_amended_witness :
    (adapter_warning (toL "   ") = [] ∧ adapter_error (toL "   ") = []) ∧
    adapter_warning (toL "plain note") =
      [.warnEv (toL "yt_dlp_warning") (pyStrip (toL "plain note"))] ∧
    adapter_warning (toL "loaded " ++ toL "WARNING:" ++ toL " config") =
      [.warnEv (toL "yt_dlp_warning") (pyStrip (toL "loaded " ++ toL " config"))] ∧
    adapter_error (toL "step E " ++ toL "ERROR:" ++ toL " detail") =
      [.errorEv (toL "yt_dlp_error") (pyStrip (toL "step E " ++ toL " detail"))] := by
  refine ⟨C8_log_adapter_amended.1 (toL "   ") (by decide), ?_, ?_, ?_⟩
  · have := C8_log_adapter_amended.2.1 (toL "plain note") (by decide)
    simpa using this
  · have := C8_log_adapter_amended.2.2.1 (toL "loaded ") (toL " config") (by decide)
    simpa using this
  · have := C8_log_adapter_amended.2.2.2.2 (toL "step E ") (toL " detail") (by decide)
    simpa using this

/-- Witness for C3 at concrete inputs: a scheme-less URL gets the prefix,
a scheme-ful URL is unchanged. -/
theorem C3_ensure_scheme_normalisation_witness :
    ensure_scheme (toL "youtube.com/watch?v=XYZ") = toL "https://" ++ toL "youtube.com/watch?v=XYZ" ∧
    ensure_scheme (toL "https://youtu.be/abc123") = toL "https://youtu.be/abc123" :=
  ⟨C3_ensure_scheme_normalisation.1 (toL "youtube.com/watch?v=XYZ") (by decide),
   C3_ensure_scheme_normalisation.2.1 (toL "https://youtu.be/abc123") (by decide)⟩

end Ytd
